import Mathlib

/-!
Verification of the requirement-reconciliation and self-healing pipeline of
`.github/scripts/project_manager.py` (class `ProjectManager`).

Shallow embedding conventions:
* Python strings are `List Char` (`Str` below); the Python substring test
  `a in b` is `List.IsInfix` (`<:+:`), `str.strip()` is `pyStrip`.
* The filesystem is an association list `List (String × Str)` from path to
  content, mutated in iteration/insertion order; `pathlib.rglob` order is
  modelled as that list order.
* External capabilities (the OpenAI chat call, `json.loads`, the
  `cssutils`/`esprima` checkers, and the shared `html.parser.HTMLParser`
  instance created in `__init__`) are fields of an environment record `Env`.
  The HTML parser is long-lived and stateful in the source
  (`self.html_parser.feed`), so its capability has type
  `P → Str → P × Option Str` over an abstract parser-state type `P`,
  threaded through the manager state.
* Python exceptions are `Except PyErr`; an exception leaves already-performed
  state mutations in place.  `logging` output is returned out-of-band as a
  `List String` of messages; the fix audit log (`logs/fixes/*.fix.log`,
  written by `log_fix`) is modelled as the append-only list `St.fixLog`
  (timestamps omitted).
-/

/-- Python strings. -/
abbrev Str := List Char

/-- Python whitespace characters removed by `str.strip()` (ASCII subset). -/
def isPySpace (c : Char) : Bool :=
  c = ' ' || c = '\t' || c = '\n' || c = '\r' || c = Char.ofNat 0x0B || c = Char.ofNat 0x0C

/-- Python `str.strip()`: drop leading and trailing whitespace. -/
def pyStrip (s : Str) : Str :=
  (((s.dropWhile isPySpace).reverse.dropWhile isPySpace).reverse)

/-- Python `str.upper()` (ASCII behaviour). -/
def pyUpper (s : Str) : Str := s.map Char.toUpper

/-- Python `str.lower()` (ASCII behaviour). -/
def pyLower (s : Str) : Str := s.map Char.toLower

/-- Split a string at every occurrence of `sep` (auxiliary accumulator form). -/
def splitChAux (sep : Char) : Str → Str → List Str
  | [], cur => [cur.reverse]
  | c :: t, cur =>
    if c = sep then cur.reverse :: splitChAux sep t []
    else splitChAux sep t (c :: cur)

/-- Split a string at every occurrence of `sep`. -/
def splitCh (sep : Char) (s : Str) : List Str := splitChAux sep s []

/-- The lines of a text, as Python file iteration plus `strip` sees them. -/
def splitLines (s : Str) : List Str := splitCh '\n' s

/-- Join lines back with newline separators. -/
def joinLines : List Str → Str
  | [] => []
  | [l] => l
  | l :: ls => l ++ '\n' :: joinLines ls

/-- `pathlib.PurePath.suffix` of a file name: the part from the last dot,
provided that dot is neither the first nor the last character of the name. -/
def pySuffix (name : Str) : Str :=
  let r := name.reverse
  let ext := r.takeWhile (fun c => c != '.')
  if 1 ≤ ext.length ∧ ext.length + 2 ≤ r.length then '.' :: ext.reverse else []

/-- Last path component of a `/`-separated path (`pathlib.PurePath.name`). -/
def lastComp (p : Str) : Str := (splitCh '/' p).getLastD []

/-- `file_path.suffix.lower()` as computed on line 257 of the source. -/
def fileTypeOf (path : String) : String := String.mk (pyLower (pySuffix (lastComp path.data)))

/-- `sfx` is a literal suffix of the path string (used to model which file
names `rglob` with a star-plus-suffix pattern yields; glob matching is
case-sensitive). -/
def strEndsWith (p sfx : String) : Bool := sfx.data.isSuffixOf p.data

/-- Content-level semantics of `_update_file` (lines 126-149): append
`content`, preceded by a newline separator, unless the trimmed `content`
already occurs in the existing content (`if content.strip() not in
existing_content:`). -/
def mergeContent (existing content : Str) : Str :=
  if pyStrip content <:+: existing then existing else existing ++ '\n' :: content

/-- The structured proposal `implement_requirement` expects from `json.loads`:
a JSON object with optional string fields `html`, `css`, `js`, `description`.
(Responses that are valid JSON but not an object are outside this model.) -/
structure Proposal where
  html : Option Str
  css : Option Str
  js : Option Str
  description : Option Str
  deriving DecidableEq

/-- The Python exceptions that can escape the embedded operations.
`attrError` is in particular the `AttributeError` raised on line 273
(`self.logging.warning(...)`: the object has a `logger` attribute but no
`logging` attribute); `keyError` is raised by the `description` key lookup
on line 328 when the key is absent. -/
inductive PyErr where
  | attrError
  | keyError
  | ioError (path : String)
  deriving DecidableEq

/-- One record of the fix audit log written by `log_fix` (lines 241-249):
file, diagnostic, content before, content after.  Timestamps are omitted. -/
structure FixRec where
  path : String
  err : Str
  original : Str
  fixed : Str
  deriving DecidableEq

/-- Manager-visible mutable state: the filesystem, the fix audit log, the
number of chat-API call attempts, and the shared HTML parser state `hp`
(the `self.html_parser` instance from `__init__`). -/
structure St (P : Type) where
  fs : List (String × Str)
  fixLog : List FixRec
  oracleCalls : Nat
  hp : P
  deriving DecidableEq

/-- External capabilities.  `oracle` is the chat completion round-trip
(`.error` = the API raised); `jsonLoads` is `json.loads` restricted to
object-shaped results (`none` = `json.JSONDecodeError`); `cssCheck` and
`jsCheck` are `cssutils.parseString` / `esprima.parseScript` wrapped as
`none` = parses cleanly, `some d` = diagnostic; `htmlFeed` is
`HTMLParser.feed` on parser state `P`; `reqSource` describes
`project_requirements.txt`: `none` = absent, `some (.error m)` = exists but
reading raises `m`, `some (.ok c)` = readable with content `c`. -/
structure Env (P : Type) where
  oracle : Str → Except String Str
  jsonLoads : Str → Option Proposal
  cssCheck : Str → Option Str
  jsCheck : Str → Option Str
  htmlFeed : P → Str → P × Option Str
  reqSource : Option (Except String Str)

/-- Association-list lookup (file read; `none` = file does not exist). -/
def getF : List (String × Str) → String → Option Str
  | [], _ => none
  | (k, v) :: t, k' => if k = k' then some v else getF t k'

/-- Association-list update (file write / create). -/
def setF : List (String × Str) → String → Str → List (String × Str)
  | [], k, v => [(k, v)]
  | (k', v') :: t, k, v => if k' = k then (k, v) :: t else (k', v') :: setF t k v

/-- Python truthiness of `implementation.get(field)`: present and non-empty. -/
def truthy : Option Str → Bool
  | none => false
  | some v => !v.isEmpty

/-- The satisfaction-judgment prompt of `check_implementation` (lines
108-117), with the requirement and corpus interpolated (the surrounding
template whitespace is condensed). -/
def checkPrompt (req corpus : Str) : Str :=
  ("Analyze if this requirement is implemented in the provided code:\n\nRequirement: ").data
    ++ req ++ ("\n\nCode:\n").data ++ corpus
    ++ ("\n\nRespond with only \x27YES\x27 or \x27NO\x27.").data

/-- The synthesis prompt of `implement_requirement` (lines 294-306). -/
def implPrompt (req : Str) : Str :=
  ("Implement the following requirement for a web project:\n").data ++ req ++
  ("\nProvide *only* the complete and necessary HTML, CSS, and JavaScript code to implement the feature, formatted as a JSON object:\n\x7b \"html\": \"<HTML_CODE>\", \"css\": \"<CSS_CODE>\", \"js\": \"<JS_CODE>\", \"description\": \"<DESCRIPTION>\" \x7d").data

/-- The language tag passed to `fix_code_error` (HTML / CSS / JavaScript). -/
inductive Lang where
  | html
  | css
  | js
  deriving DecidableEq

/-- The correction prompt of `fix_code_error` (lines 206-214). -/
def fixPrompt (lang : Lang) (error code : Str) : Str :=
  ("Fix the following ").data ++
  (match lang with
   | .html => ("HTML").data
   | .css => ("CSS").data
   | .js => ("JavaScript").data) ++
  (" code that has this error:\nError: ").data ++ error ++
  ("\n\nCode:\n").data ++ code ++
  ("\n\nProvide only the fixed code without any explanations.").data

/-- `chatgpt_generate` (lines 73-88): one chat-API attempt.  On success the
response text is returned `strip()`ped; an API exception is caught, logged,
and surfaces as `none`.  `oracleCalls` counts attempts. -/
def chatgpt_generate {P : Type} (env : Env P) (prompt : Str) (s : St P) :
    Option Str × St P × List String :=
  let s1 : St P := { s with oracleCalls := s.oracleCalls + 1 }
  match env.oracle prompt with
  | .ok r => (some (pyStrip r), s1, [])
  | .error m => (none, s1, ["Error generating content with ChatGPT: " ++ m])

/-- The corpus `check_implementation` builds (lines 93-103): the contents of
`index.html`, `styles.css`, `script.js` in that order, the content of each
existing file preceded by a newline. -/
def corpusOf (fs : List (String × Str)) : Str :=
  (match getF fs "index.html" with | some c => '\n' :: c | none => []) ++
  (match getF fs "styles.css" with | some c => '\n' :: c | none => []) ++
  (match getF fs "script.js" with | some c => '\n' :: c | none => [])

/-- `check_implementation` (lines 90-123).  Blank corpus returns `False`
before any oracle call.  Otherwise the oracle is asked; a `None` response
makes `response.upper()` raise `AttributeError`, which the enclosing
`except` converts to a logged `False`. -/
def check_implementation {P : Type} (env : Env P) (req : Str) (s : St P) :
    Bool × St P × List String :=
  let content := corpusOf s.fs
  if pyStrip content = [] then (false, s, [])
  else
    let g := chatgpt_generate env (checkPrompt req content) s
    match g.1 with
    | none => (false, g.2.1, g.2.2 ++ ["Error checking implementation: AttributeError"])
    | some r => (pyUpper r == ("YES").data, g.2.1, g.2.2)

/-- `_update_file` (lines 126-149): create the file if absent (`touch`),
then append-merge via the substring guard (`mergeContent`); never raises. -/
def update_file {P : Type} (filename : String) (content : Str) (s : St P) :
    St P × List String :=
  let existing := (getF s.fs filename).getD []
  ({ s with fs := setF s.fs filename (mergeContent existing content) },
   ["Updated " ++ filename])

/-- Default `README.md` content used when the file does not exist (line 158). -/
def readmeBase : Str :=
  ("# Auto-Generated Project\n\n## Implemented Features\n\n").data

/-- `_update_readme` (lines 151-177): ensure the section heading, then append
the `### requirement\ndescription\n\n` block unless it is already a
substring; the file is written only when the block is appended. -/
def update_readme {P : Type} (req desc : Str) (s : St P) : St P × List String :=
  let content := (getF s.fs "README.md").getD readmeBase
  let content1 :=
    if ("## Implemented Features").data <:+: content then content
    else content ++ ("\n## Implemented Features\n\n").data
  let entry := ("### ").data ++ req ++ '\n' :: desc ++ ("\n\n").data
  if entry <:+: content1 then
    (s, ["Updated README.md with requirement: " ++ String.mk req])
  else
    ({ s with fs := setF s.fs "README.md" (content1 ++ entry) },
     ["Updated README.md with requirement: " ++ String.mk req])

/-- `check_html_errors` (lines 180-186): feed the content to the shared
`self.html_parser` created in `__init__`.  The feed both produces the
diagnostic (exceptions are caught and stringified) and advances the shared
parser state. -/
def check_html_errors {P : Type} (env : Env P) (s : St P) (content : Str) :
    Option Str × St P :=
  let f := env.htmlFeed s.hp content
  (f.2, { s with hp := f.1 })

/-- `check_css_errors` (lines 188-194): `cssutils.parseString` on the content
alone; no manager state is read or written. -/
def check_css_errors {P : Type} (env : Env P) (s : St P) (content : Str) :
    Option Str × St P :=
  (env.cssCheck content, s)

/-- `check_js_errors` (lines 196-202): `esprima.parseScript` on the content
alone; no manager state is read or written. -/
def check_js_errors {P : Type} (env : Env P) (s : St P) (content : Str) :
    Option Str × St P :=
  (env.jsCheck content, s)

/-- Dispatch on the language tag, as the body of `fix_code_error` does. -/
def checkFor {P : Type} (env : Env P) (lang : Lang) (s : St P) (content : Str) :
    Option Str × St P :=
  match lang with
  | .html => check_html_errors env s content
  | .css => check_css_errors env s content
  | .js => check_js_errors env s content

/-- `fix_code_error` (lines 204-239): one correction prompt, then one
re-validation of the returned text; a still-failing or missing correction is
logged and surfaces as `none`.  When the oracle response is `None`, the code
passes `None` to the checker, whose own `except` turns the resulting
`TypeError` into a diagnostic, so the attempt is likewise logged failed. -/
def fix_code_error {P : Type} (env : Env P) (code error : Str) (lang : Lang)
    (s : St P) : Option Str × St P × List String :=
  let g := chatgpt_generate env (fixPrompt lang error code) s
  match g.1 with
  | none => (none, g.2.1, g.2.2 ++ ["Fix attempt failed. New error: TypeError"])
  | some f =>
    let fixed := pyStrip f
    let v := checkFor env lang g.2.1 fixed
    match v.1 with
    | none => (some fixed, v.2, g.2.2)
    | some e2 =>
      (none, v.2, g.2.2 ++ ["Fix attempt failed. New error: " ++ String.mk e2])

/-- `log_fix` (lines 241-249): append one record to the fix audit log. -/
def log_fix {P : Type} (path : String) (error original fixed : Str) (s : St P) : St P :=
  { s with fixLog := s.fixLog ++ [⟨path, error, original, fixed⟩] }

/-- `file_path.with_suffix(file_path.suffix + ".backup")` (line 278): for a
name that has a suffix this is the original path with `".backup"` appended. -/
def backupName (path : String) : String := path ++ ".backup"

/-- The repair block of `check_and_fix_file` as written on lines 274-289:
attempt a fix; on success write the backup of the original first, then
overwrite the live file, then append the audit record.  In the source this
block is unreachable: line 273 (`self.logging.warning`) raises
`AttributeError` first (the attribute is `self.logger`). -/
def repairBlock {P : Type} (env : Env P) (path : String) (content error : Str)
    (lang : Lang) (s : St P) : St P × List String :=
  let r := fix_code_error env content error lang s
  match r.1 with
  | none => (r.2.1, r.2.2)
  | some fixed =>
    let s2 : St P := { r.2.1 with fs := setF r.2.1.fs (backupName path) content }
    let s3 : St P := { s2 with fs := setF s2.fs path fixed }
    let s4 := log_fix path error content fixed s3
    (s4, r.2.2 ++
      ["Fixed error in " ++ path ++ ". Original backed up to " ++ backupName path])

/-- Outcome of `check_and_fix_file` once a diagnostic has been computed:
a clean file returns normally; any diagnostic reaches line 273,
`self.logging.warning(...)`, which raises `AttributeError` because the
manager object has no `logging` attribute — so the repair block
(`repairBlock`, lines 274-289) never executes. -/
def afterCheck {P : Type} (err : Option Str) (s : St P) :
    Except PyErr Unit × St P × List String :=
  match err with
  | none => (.ok (), s, [])
  | some _ => (.error .attrError, s, [])

/-- `check_and_fix_file` (lines 252-289): read the file (raising if it does
not exist), dispatch on the lowercased suffix, return silently for any other
suffix, and otherwise validate; see `afterCheck` for the diagnostic case. -/
def check_and_fix_file {P : Type} (env : Env P) (path : String) (s : St P) :
    Except PyErr Unit × St P × List String :=
  match getF s.fs path with
  | none => (.error (.ioError path), s, [])
  | some content =>
    if fileTypeOf path = ".html" then
      let c := check_html_errors env s content
      afterCheck c.1 c.2
    else if fileTypeOf path = ".css" then afterCheck (env.cssCheck content) s
    else if fileTypeOf path = ".js" then afterCheck (env.jsCheck content) s
    else (.ok (), s, [])

/-- The per-requirement validation loop of `implement_requirement` (lines
321-325): run `check_and_fix_file` over the three artifact names that exist;
an exception escaping one call aborts the rest (there is no handler for it
in `implement_requirement`). -/
def check_touched {P : Type} (env : Env P) : List String → St P →
    Except PyErr Unit × St P × List String
  | [], s => (.ok (), s, [])
  | n :: ns, s =>
    if (getF s.fs n).isSome then
      match check_and_fix_file env n s with
      | (.error e, s1, l1) => (.error e, s1, l1)
      | (.ok _, s1, l1) =>
        let k := check_touched env ns s1
        (k.1, k.2.1, l1 ++ k.2.2)
    else check_touched env ns s

/-- `implement_requirement` (lines 292-331): ask the oracle for a JSON
proposal, parse the raw (whitespace-stripped) response with `json.loads`
(no code-fence stripping), merge the truthy fragments, update the README,
re-validate the three artifacts, then look up the `description` key
(line 328, raising `KeyError` when absent).  Only `json.JSONDecodeError` is
caught (logged with a fixed message); every other exception propagates. -/
def implement_requirement {P : Type} (env : Env P) (req : Str) (s : St P) :
    Except PyErr Unit × St P × List String :=
  let g := chatgpt_generate env (implPrompt req) s
  match g.1 with
  | none => (.ok (), g.2.1, g.2.2)
  | some r =>
    if r.isEmpty then (.ok (), g.2.1, g.2.2)
    else
      match env.jsonLoads r with
      | none => (.ok (), g.2.1, g.2.2 ++ ["Invalid JSON response from ChatGPT"])
      | some p =>
        let ua := if truthy p.html then update_file "index.html" (p.html.getD []) g.2.1
                  else (g.2.1, ([] : List String))
        let ub := if truthy p.css then update_file "styles.css" (p.css.getD []) ua.1
                  else (ua.1, ([] : List String))
        let uc := if truthy p.js then update_file "script.js" (p.js.getD []) ub.1
                  else (ub.1, ([] : List String))
        let ur := update_readme req (p.description.getD []) uc.1
        let ck := check_touched env ["index.html", "styles.css", "script.js"] ur.1
        match ck.1 with
        | .error e =>
          (.error e, ck.2.1, g.2.2 ++ ua.2 ++ ub.2 ++ uc.2 ++ ur.2 ++ ck.2.2)
        | .ok _ =>
          match p.description with
          | none =>
            (.error .keyError, ck.2.1, g.2.2 ++ ua.2 ++ ub.2 ++ uc.2 ++ ur.2 ++ ck.2.2)
          | some d =>
            let u2 := update_readme req d ck.2.1
            (.ok (), u2.1, g.2.2 ++ ua.2 ++ ub.2 ++ uc.2 ++ ur.2 ++ ck.2.2 ++ u2.2)

/-- The requirement loop of `run` (lines 342-348): process requirements in
order; an exception escaping `implement_requirement` aborts the remaining
requirements (it is caught only by the handler wrapping all of `run`). -/
def process_reqs {P : Type} (env : Env P) : List Str → St P →
    Except PyErr Unit × St P × List String
  | [], s => (.ok (), s, [])
  | r :: rs, s =>
    let hd := "Processing requirement: " ++ String.mk r
    let c := check_implementation env r s
    if c.1 then
      let k := process_reqs env rs c.2.1
      (k.1, k.2.1,
       hd :: c.2.2 ++ ("Requirement already implemented: " ++ String.mk r) :: k.2.2)
    else
      let i := implement_requirement env r c.2.1
      match i.1 with
      | .error e =>
        (.error e, i.2.1,
         hd :: c.2.2 ++ ("Implementing requirement: " ++ String.mk r) :: i.2.2)
      | .ok _ =>
        let k := process_reqs env rs i.2.1
        (k.1, k.2.1,
         hd :: c.2.2 ++ ("Implementing requirement: " ++ String.mk r) :: i.2.2 ++ k.2.2)

/-- The file paths the recursive glob on line 352 yields, in model order:
the files currently on disk whose path ends with `ft`. -/
def sweepPaths (fs : List (String × Str)) (ft : String) : List String :=
  (fs.filter (fun kv => strEndsWith kv.1 ft)).map (fun kv => kv.1)

/-- One file-type pass of the final sweep (inner loop of lines 351-353);
an exception aborts the remainder of the sweep. -/
def sweepList {P : Type} (env : Env P) : List String → St P →
    Except PyErr Unit × St P × List String
  | [], s => (.ok (), s, [])
  | p :: ps, s =>
    match check_and_fix_file env p s with
    | (.error e, s1, l1) => (.error e, s1, l1)
    | (.ok _, s1, l1) =>
      let k := sweepList env ps s1
      (k.1, k.2.1, l1 ++ k.2.2)

/-- The outer loop of the final sweep over the three file types. -/
def sweepKinds {P : Type} (env : Env P) : List String → St P →
    Except PyErr Unit × St P × List String
  | [], s => (.ok (), s, [])
  | ft :: fts, s =>
    match sweepList env (sweepPaths s.fs ft) s with
    | (.error e, s1, l1) => (.error e, s1, l1)
    | (.ok _, s1, l1) =>
      let k := sweepKinds env fts s1
      (k.1, k.2.1, l1 ++ k.2.2)

/-- The final artifact sweep of `run` (lines 350-353). -/
def sweepAll {P : Type} (env : Env P) (s : St P) :
    Except PyErr Unit × St P × List String :=
  sweepKinds env [".html", ".css", ".js"] s

/-- The line-folding parser of `read_requirements` (lines 30-47): blank lines
are skipped, a line starting with `-` is folded (with a newline) into the
current requirement, any other line flushes the current requirement and
starts a new one; the last requirement is flushed at end of input. -/
def parseReqsAux : List Str → Str → List Str → List Str
  | [], cur, acc => if cur.isEmpty then acc else acc ++ [pyStrip cur]
  | l :: ls, cur, acc =>
    let l := pyStrip l
    if l.isEmpty then parseReqsAux ls cur acc
    else if l.head? = some '-' then parseReqsAux ls (cur ++ '\n' :: l) acc
    else if cur.isEmpty then parseReqsAux ls l acc
    else parseReqsAux ls l (acc ++ [pyStrip cur])

/-- `read_requirements` (lines 27-54): parse the requirement list; any
exception while reading is caught and logged and yields the empty list. -/
def read_requirements (source : Except String Str) : List Str × List String :=
  match source with
  | .error m => ([], ["Error reading requirements: " ++ m])
  | .ok c =>
    let reqs := parseReqsAux (splitLines c) [] []
    (reqs, ["Read " ++ toString reqs.length ++ " requirements"])

/-- `run` (lines 333-358): early return when the requirements file is absent
(skipping even the final log line); otherwise the requirement loop followed
by the artifact sweep, the whole of it wrapped in one `except Exception`
that logs and falls through to the final log line (the interpolated
exception text and traceback of that log line are elided here). -/
def run_manager {P : Type} (env : Env P) (s : St P) : St P × List String :=
  let l0 := ["Starting project manager run"]
  match env.reqSource with
  | none =>
    (s, l0 ++ ["No project_requirements.txt file found, skipping requirement parsing."])
  | some src =>
    let rr := read_requirements src
    match process_reqs env rr.1 s with
    | (.error _, s1, l1) =>
      (s1, l0 ++ rr.2 ++ l1 ++ ["Error in main execution", "Completed project manager run"])
    | (.ok _, s1, l1) =>
      match sweepAll env s1 with
      | (.error _, s2, l2) =>
        (s2, l0 ++ rr.2 ++ l1 ++ l2 ++
          ["Error in main execution", "Completed project manager run"])
      | (.ok _, s2, l2) =>
        (s2, l0 ++ rr.2 ++ l1 ++ l2 ++ ["Completed project manager run"])

/-- Modelled from the spec: the claimed (but absent from the source)
stripping of fenced code block markers wrapping the structured payload
before parsing — remove a leading fence line and a trailing fence line when
both are present. -/
def stripFences (s : Str) : Str :=
  match splitLines (pyStrip s) with
  | [] => s
  | a :: rest =>
    if (("```").data).isPrefixOf a then
      match rest.reverse with
      | [] => s
      | b :: midRev =>
        if b = ("```").data then joinLines midRev.reverse else s
    else s

/-- The empty manager state over the trivial parser-state type. -/
def stU0 : St Unit := ⟨[], [], 0, ()⟩

/-- First requirement of the two-requirement run used for claim C1. -/
def r1C1 : Str := ("First requirement").data

/-- Second requirement of the two-requirement run used for claim C1. -/
def r2C1 : Str := ("Second requirement").data

/-- The requirements source used for claim C1: two header lines. -/
def srcC1 : Str := ("First requirement\nSecond requirement").data

/-- The CSS fragment the claim-C1 proposal carries (flagged by the checker). -/
def cssBadC1 : Str := ("body \x7b color: red;").data

/-- The proposal the claim-C1 oracle run yields: only a CSS fragment and a
description. -/
def pC1 : Proposal := ⟨none, some cssBadC1, none, some (("desc").data)⟩

/-- The JSON text the claim-C1 oracle returns; it denotes `pC1`. -/
def jsonC1 : Str :=
  ("\x7b\"css\": \"body \x7b color: red;\", \"description\": \"desc\"\x7d").data

/-- Claim C1 environment: the oracle answers with the JSON object `jsonC1`
(`jsonLoads` agrees with `json.loads` on the probed strings: exactly that
object text parses, to `pC1`), and the CSS checker capability rejects the
merged fragment with a diagnostic.  That diagnostic makes line 273 raise. -/
def envC1 : Env Unit :=
  ⟨fun _ => .ok jsonC1,
   fun s => if s = jsonC1 then some pC1 else none,
   fun _ => some (("unterminated block").data),
   fun _ => none,
   fun u _ => (u, none),
   some (.ok srcC1)⟩

/-- The result of implementing the first claim-C1 requirement (used to name
its component state and log in closed statements). -/
def iResC1 : Except PyErr Unit × St Unit × List String :=
  implement_requirement envC1 r1C1 stU0

/-- Claim C1 environment for the contained-failure cases: the oracle
answers, but the answer is not valid JSON. -/
def envC1ok : Env Unit :=
  ⟨fun _ => .ok (("not json").data),
   fun _ => none,
   fun _ => none,
   fun _ => none,
   fun u _ => (u, none),
   some (.ok srcC1)⟩

/-- The result of implementing a requirement under `envC1ok`. -/
def iResC1ok : Except PyErr Unit × St Unit × List String :=
  implement_requirement envC1ok r1C1 stU0

/-- Claim C1 environment in which every oracle call fails. -/
def envC1f : Env Unit :=
  ⟨fun _ => .error "offline",
   fun _ => none,
   fun _ => none,
   fun _ => none,
   fun u _ => (u, none),
   some (.ok srcC1)⟩

/-- The broken Style artifact of the claim-C3 scenario. -/
def cssBadC3 : Str := ("body \x7b color: red;").data

/-- The diagnostic the claim-C3 checker reports. -/
def errC3 : Str := ("unterminated block").data

/-- Claim C3 environment: the CSS checker rejects everything (so the
corrected text the oracle returns would also fail re-validation). -/
def envC3 : Env Unit :=
  ⟨fun _ => .ok (("body \x7b color: red; still bad").data),
   fun _ => none,
   fun _ => some errC3,
   fun _ => none,
   fun u _ => (u, none),
   none⟩

/-- Claim C3 state: one Style artifact containing the unterminated block. -/
def stC3 : St Unit := ⟨[("styles.css", cssBadC3)], [], 0, ()⟩

/-- The fenced oracle response of the claim-C4 scenario. -/
def fencedC4 : Str := ("```json\n\x7b\"html\": \"<p>hi</p>\"\x7d\n```").data

/-- The payload inside the fences of `fencedC4`. -/
def innerC4 : Str := ("\x7b\"html\": \"<p>hi</p>\"\x7d").data

/-- The proposal `innerC4` denotes. -/
def pC4 : Proposal := ⟨some (("<p>hi</p>").data), none, none, some (("greeting").data)⟩

/-- Claim C4 environment.  `jsonLoads` agrees with RFC 8259 JSON semantics on
the two probed strings: the fenced text (which starts with a backtick) is
not valid JSON, the inner object is and denotes `pC4`. -/
def envC4 : Env Unit :=
  ⟨fun _ => .ok fencedC4,
   fun s => if s = innerC4 then some pC4 else none,
   fun _ => none,
   fun _ => none,
   fun u _ => (u, none),
   none⟩

/-- The requirement of the claim-C4 scenario. -/
def reqC4 : Str := ("Add a greeting").data

/-- The broken Style artifact of the claim-C5 scenario. -/
def cssBadC5 : Str := ("body \x7b color: red;").data

/-- The corrected Style text the claim-C5 oracle returns. -/
def cssGoodC5 : Str := ("body \x7b color: red; \x7d").data

/-- The diagnostic of the claim-C5 scenario. -/
def errC5 : Str := ("unterminated block").data

/-- Claim C5 environment: the CSS checker rejects exactly the broken
artifact, and the oracle returns a correction that re-validates clean —
a repair that would succeed if it were ever attempted. -/
def envC5 : Env Unit :=
  ⟨fun _ => .ok cssGoodC5,
   fun _ => none,
   fun c => if c = cssBadC5 then some errC5 else none,
   fun _ => none,
   fun u _ => (u, none),
   none⟩

/-- Claim C5 state: one Style artifact containing the unterminated block. -/
def stC5 : St Unit := ⟨[("styles.css", cssBadC5)], [], 0, ()⟩

/-- Claim C6 environment: an oracle that would eagerly answer YES — used to
show it is not consulted on a blank corpus. -/
def envC6 : Env Unit :=
  ⟨fun _ => .ok (("YES").data),
   fun _ => none,
   fun _ => none,
   fun _ => none,
   fun u _ => (u, none),
   none⟩

/-- Claim C6 state: the artifacts exist but hold only whitespace. -/
def stC6 : St Unit := ⟨[("styles.css", ("   \n").data)], [], 0, ()⟩

/-- The requirement used in the claim C6 and C8 witnesses. -/
def reqC6 : Str := ("Add a dark-mode toggle").data

/-- A parser-state transition consistent with the documented buffering of
`html.parser.HTMLParser.feed` (incomplete markup is kept in an internal
buffer and processed together with later input): the state is the buffered
text, and a buffered-plus-new input containing the malformed marked-section
opener is diagnosed. -/
def bufFeed (buf content : Str) : Str × Option Str :=
  let d := buf ++ content
  if (("<![x").data) <:+: d then (d, some (("unexpected char in marked section").data))
  else (d, none)

/-- Claim C7 environment over buffering parser states. -/
def envC7 : Env Str :=
  ⟨fun _ => .error "off",
   fun _ => none,
   fun _ => none,
   fun _ => none,
   bufFeed,
   none⟩

/-- The empty manager state over buffering parser states. -/
def stS0 : St Str := ⟨[], [], 0, []⟩

/-- Claim C7 witness environment: a parser whose feed result ignores the
parser state. -/
def envC7pure : Env Unit :=
  ⟨fun _ => .error "off",
   fun _ => none,
   fun _ => none,
   fun _ => none,
   fun u _ => (u, none),
   none⟩

/-- A second, different manager state for the claim C7 witness. -/
def stU1 : St Unit := ⟨[("x.html", ("x").data)], [], 3, ()⟩

/-- Claim C8 environment (capabilities are irrelevant to the statement). -/
def envC8 : Env Unit :=
  ⟨fun _ => .ok (("NO").data),
   fun _ => none,
   fun _ => none,
   fun _ => none,
   fun u _ => (u, none),
   none⟩

/-- Claim C8 state: no artifact files exist (a README may). -/
def stC8 : St Unit := ⟨[("README.md", readmeBase)], [], 0, ()⟩

/-- The markup fragment merged in the claim C8 witness. -/
def fragC8 : Str := ("<button id=\"dark\">toggle</button>").data

/-- Claim C9 environment (capabilities are irrelevant to the statement). -/
def envC9 : Env Unit :=
  ⟨fun _ => .ok (("YES").data),
   fun _ => none,
   fun _ => some (("e").data),
   fun _ => some (("e").data),
   fun u _ => (u, some (("e").data)),
   none⟩

/-- Claim C9 state: a file of a non-web suffix. -/
def stC9 : St Unit := ⟨[("notes.txt", ("hello").data)], [], 0, ()⟩

/-- Claim C10 environment: the requirements file exists but reading it
raises. -/
def envC10 : Env Unit :=
  ⟨fun _ => .error "offline",
   fun _ => none,
   fun _ => none,
   fun _ => none,
   fun u _ => (u, none),
   some (.error "Permission denied")⟩

/-- Claim C10 state: one existing artifact, so the sweep has work to do. -/
def stC10 : St Unit := ⟨[("index.html", ("<p>hi</p>").data)], [], 0, ()⟩

/-- The trimmed text is a contiguous substring of the original. -/
theorem pyStrip_isInfix (s : Str) : pyStrip s <:+: s := by
  have h1 : s.dropWhile isPySpace <:+ s := List.dropWhile_suffix _
  have h2 : (s.dropWhile isPySpace).reverse.dropWhile isPySpace <:+
      (s.dropWhile isPySpace).reverse := List.dropWhile_suffix _
  have h3 := List.reverse_prefix.mpr h2
  rw [List.reverse_reverse] at h3
  exact (h3.isInfix).trans h1.isInfix

/-- Merging content that is already a substring is a no-op. -/
theorem mergeContent_of_infix {Z M : Str} (h : Z <:+: M) : mergeContent M Z = M := by
  unfold mergeContent
  rw [if_pos ((pyStrip_isInfix Z).trans h)]

/-- Merging the same content a second time changes nothing. -/
theorem mergeContent_idem (e X : Str) :
    mergeContent (mergeContent e X) X = mergeContent e X := by
  by_cases hg : pyStrip X <:+: e
  · have h1 : mergeContent e X = e := by unfold mergeContent; rw [if_pos hg]
    rw [h1]
    exact h1
  · have h1 : mergeContent e X = e ++ '\n' :: X := by unfold mergeContent; rw [if_neg hg]
    have hX : X <:+: mergeContent e X := by
      rw [h1]
      exact ((List.suffix_cons '\n' X).trans (List.suffix_append e ('\n' :: X))).isInfix
    exact mergeContent_of_infix hX

/-- Looking up the file just written returns the written content. -/
theorem getF_setF_same (fs : List (String × Str)) (k : String) (v : Str) :
    getF (setF fs k v) k = some v := by
  induction fs with
  | nil => simp [setF, getF]
  | cons kv t ih =>
    obtain ⟨k', v'⟩ := kv
    by_cases h : k' = k
    · simp [setF, h, getF]
    · simp [setF, h, getF, ih]

/-- A blank corpus short-circuits `check_implementation` to `False` with no
oracle call and no state change. -/
theorem check_implementation_blank {P : Type} (env : Env P) (req : Str) (s : St P)
    (h : pyStrip (corpusOf s.fs) = []) :
    check_implementation env req s = (false, s, []) := by
  unfold check_implementation
  simp [h]

/-- Merging into empty existing content prepends the newline separator. -/
theorem mergeContent_nil (F : Str) (h : pyStrip F ≠ []) :
    mergeContent [] F = '\n' :: F := by
  unfold mergeContent
  rw [if_neg (fun hc => h (List.infix_nil.mp hc))]
  rfl

/-- C2: `_update_file` appends the content (preceded by a newline separator)
only when the trimmed content is not already a substring of the existing
content; consequently merging the same `X` twice equals merging it once, and
merging any `Y` that is a substring of the post-merge content is a no-op. -/
theorem C2_merge_idem_and_guard (e X Y : Str) :
    mergeContent (mergeContent e X) X = mergeContent e X ∧
    (Y <:+: mergeContent e X →
      mergeContent (mergeContent e X) Y = mergeContent e X) :=
  ⟨mergeContent_idem e X, fun h => mergeContent_of_infix h⟩

/-- C2 witness: a concrete instantiation of the substring-guard clause. -/
theorem C2_merge_idem_and_guard_witness :
    (("b").data <:+: mergeContent [] (("ab").data)) ∧
    mergeContent (mergeContent [] (("ab").data)) (("b").data) =
      mergeContent [] (("ab").data) :=
  ⟨by decide, (C2_merge_idem_and_guard [] (("ab").data) (("b").data)).2 (by decide)⟩

/-- C6: when the concatenated artifact corpus is blank, the satisfaction
check returns false as an unchanged-state result, in particular without
an oracle call attempt. -/
theorem C6_blank_corpus_short_circuit {P : Type} (env : Env P) (req : Str)
    (s : St P) (h : pyStrip (corpusOf s.fs) = []) :
    check_implementation env req s = (false, s, []) :=
  check_implementation_blank env req s h

/-- C6 witness: artifacts holding only whitespace short-circuit to false. -/
theorem C6_blank_corpus_short_circuit_witness :
    pyStrip (corpusOf stC6.fs) = [] ∧
    check_implementation envC6 reqC6 stC6 = (false, stC6, []) :=
  ⟨by decide, C6_blank_corpus_short_circuit envC6 reqC6 stC6 (by decide)⟩

/-- C9: for a readable file whose lowercased suffix is none of `.html`,
`.css`, `.js`, `check_and_fix_file` returns right after the read: no oracle
call, no state change, no log output. -/
theorem C9_non_web_suffix_noop {P : Type} (env : Env P) (path : String)
    (s : St P) (content : Str) (h : getF s.fs path = some content)
    (h1 : fileTypeOf path ≠ ".html") (h2 : fileTypeOf path ≠ ".css")
    (h3 : fileTypeOf path ≠ ".js") :
    check_and_fix_file env path s = (.ok (), s, []) := by
  unfold check_and_fix_file
  rw [h]
  simp [h1, h2, h3]

/-- C9 witness: a `.txt` file is read and left alone. -/
theorem C9_non_web_suffix_noop_witness :
    getF stC9.fs "notes.txt" = some (("hello").data) ∧
    fileTypeOf "notes.txt" ≠ ".html" ∧
    check_and_fix_file envC9 "notes.txt" stC9 = (.ok (), stC9, []) :=
  ⟨rfl, by decide,
   C9_non_web_suffix_noop envC9 "notes.txt" stC9 (("hello").data) rfl
     (by decide) (by decide) (by decide)⟩

/-- C8 counterexample: merging a fragment into an empty (absent) artifact is
not verbatim — the stored content is a newline followed by the fragment. -/
theorem C8_counterexample :
    getF ((update_file "index.html" (("x").data) stU0).1.fs) "index.html" =
      some ('\n' :: ("x").data) ∧
    ('\n' :: ("x").data) ≠ ("x").data := by
  exact ⟨rfl, by decide⟩

/-- C8 (amended): starting from absent artifacts the satisfaction check
returns false without an oracle call, and a non-blank fragment merged into
its empty artifact is stored as a newline followed by the fragment (the
separator is prepended even though the artifact was empty). -/
theorem C8_empty_artifact_merge {P : Type} (env : Env P) (req : Str)
    (s : St P) (F : Str)
    (h1 : getF s.fs "index.html" = none) (h2 : getF s.fs "styles.css" = none)
    (h3 : getF s.fs "script.js" = none) (hF : pyStrip F ≠ []) :
    check_implementation env req s = (false, s, []) ∧
    getF ((update_file "index.html" F s).1.fs) "index.html" =
      some ('\n' :: F) := by
  constructor
  · apply check_implementation_blank
    unfold corpusOf
    rw [h1, h2, h3]
    rfl
  · unfold update_file
    simp only [h1, Option.getD_none]
    rw [mergeContent_nil F hF]
    exact getF_setF_same s.fs "index.html" ('\n' :: F)

/-- C8 witness: the empty-artifact scenario at a concrete fragment. -/
theorem C8_empty_artifact_merge_witness :
    getF stC8.fs "index.html" = none ∧ pyStrip fragC8 ≠ [] ∧
    (check_implementation envC8 reqC6 stC8 = (false, stC8, []) ∧
     getF ((update_file "index.html" fragC8 stC8).1.fs) "index.html" =
       some ('\n' :: fragC8)) :=
  ⟨rfl, by decide,
   C8_empty_artifact_merge envC8 reqC6 stC8 fragC8 rfl rfl rfl (by decide)⟩

/-- C3 counterexample: in the failed-repair scenario (a Style artifact whose
content the checker rejects and whose attempted correction would also be
rejected) the fix audit log receives no record at all — not one failed
record — and no backup appears; the operation instead raises. -/
theorem C3_counterexample :
    check_and_fix_file envC3 "styles.css" stC3 = (.error .attrError, stC3, []) ∧
    (check_and_fix_file envC3 "styles.css" stC3).2.1.fixLog.length ≠
      stC3.fixLog.length + 1 ∧
    getF (check_and_fix_file envC3 "styles.css" stC3).2.1.fs
      (backupName "styles.css") = none := by
  exact ⟨rfl, by decide, rfl⟩

/-- C3 (amended): whenever the CSS checker reports a diagnostic for an
existing `.css` file, `check_and_fix_file` raises `AttributeError` at the
undefined `self.logging` reference before any repair attempt: the live file
is unchanged, no backup is written, and nothing is appended to the fix
audit log. -/
theorem C3_failed_repair_no_audit_record {P : Type} (env : Env P)
    (path : String) (s : St P) (content err : Str)
    (h : getF s.fs path = some content)
    (hft : fileTypeOf path = ".css")
    (hc : env.cssCheck content = some err) :
    check_and_fix_file env path s = (.error .attrError, s, []) := by
  unfold check_and_fix_file
  rw [h]
  have hne : fileTypeOf path ≠ ".html" := by rw [hft]; decide
  simp [hne, hft, afterCheck, hc]

/-- C3 witness: the amended statement at the concrete broken Style artifact. -/
theorem C3_failed_repair_no_audit_record_witness :
    getF stC3.fs "styles.css" = some cssBadC3 ∧
    fileTypeOf "styles.css" = ".css" ∧
    envC3.cssCheck cssBadC3 = some errC3 ∧
    check_and_fix_file envC3 "styles.css" stC3 = (.error .attrError, stC3, []) :=
  ⟨rfl, by decide, rfl,
   C3_failed_repair_no_audit_record envC3 "styles.css" stC3 cssBadC3 errC3
     rfl (by decide) rfl⟩

/-- C5: evaluation of the code at the failing input.  The Style artifact is
broken, the oracle holds a correction that would re-validate clean, yet
`check_and_fix_file` raises `AttributeError` (line 273) before any repair:
the live file keeps the broken content, no backup file exists afterwards,
and the audit log stays empty — the backup-before-overwrite block (lines
277-289, `repairBlock`) is unreachable. -/
theorem C5_code_evaluation :
    envC5.cssCheck cssBadC5 = some errC5 ∧
    envC5.cssCheck (pyStrip cssGoodC5) = none ∧
    envC5.oracle (fixPrompt Lang.css errC5 cssBadC5) = .ok cssGoodC5 ∧
    check_and_fix_file envC5 "styles.css" stC5 = (.error .attrError, stC5, []) ∧
    getF (check_and_fix_file envC5 "styles.css" stC5).2.1.fs
      (backupName "styles.css") = none ∧
    (check_and_fix_file envC5 "styles.css" stC5).2.1.fixLog = [] := by
  refine ⟨rfl, by decide, rfl, rfl, rfl, rfl⟩

/-- C7 counterexample: with the HTML parser shared across calls (as the
source does via the single instance created in `__init__`) and a feed
consistent with documented parser buffering, the HTML check on the same
content returns different results depending on an earlier check. -/
theorem C7_counterexample :
    (check_html_errors envC7 stS0 (("[x>").data)).1 = none ∧
    (check_html_errors envC7
        ((check_html_errors envC7 stS0 (("<!").data)).2) (("[x>").data)).1 =
      some (("unexpected char in marked section").data) := by
  exact ⟨rfl, by decide⟩

/-- C7 (amended): the CSS and JS checks are pure functions of the content —
same result from any manager state, and no state change; the HTML check is
a pure function of the content only under the extra assumption that the
feed result of the shared parser is independent of the parser state. -/
theorem C7_validator_purity :
    (∀ (P : Type) (env : Env P) (s s' : St P) (c : Str),
       (check_css_errors env s c).1 = (check_css_errors env s' c).1 ∧
       (check_css_errors env s c).2 = s) ∧
    (∀ (P : Type) (env : Env P) (s s' : St P) (c : Str),
       (check_js_errors env s c).1 = (check_js_errors env s' c).1 ∧
       (check_js_errors env s c).2 = s) ∧
    (∀ (P : Type) (env : Env P),
       (∀ (p q : P) (c : Str), (env.htmlFeed p c).2 = (env.htmlFeed q c).2) →
       ∀ (s s' : St P) (c : Str),
         (check_html_errors env s c).1 = (check_html_errors env s' c).1) := by
  refine ⟨fun P env s s' c => ⟨rfl, rfl⟩, fun P env s s' c => ⟨rfl, rfl⟩,
    fun P env hf s s' c => ?_⟩
  simpa [check_html_errors] using hf s.hp s'.hp c

/-- C7 witness: the HTML clause at a state-insensitive parser capability. -/
theorem C7_validator_purity_witness :
    (∀ (p q : Unit) (c : Str),
       (envC7pure.htmlFeed p c).2 = (envC7pure.htmlFeed q c).2) ∧
    (check_html_errors envC7pure stU0 (("<p>").data)).1 =
      (check_html_errors envC7pure stU1 (("<p>").data)).1 :=
  ⟨fun _ _ _ => rfl,
   C7_validator_purity.2.2 Unit envC7pure (fun _ _ _ => rfl) stU0 stU1 (("<p>").data)⟩

/-- C10: when the requirements file exists but reading it raises, the read
is caught and yields the empty requirement list (no exception), and the run
degenerates to exactly the artifact sweep: its final state is the state the
full sweep alone produces. -/
theorem C10_unreadable_requirements {P : Type} (env : Env P) (s : St P)
    (m : String) (h : env.reqSource = some (.error m)) :
    (read_requirements (.error m)).1 = [] ∧
    (run_manager env s).1 = (sweepAll env s).2.1 := by
  refine ⟨rfl, ?_⟩
  unfold run_manager
  rw [h]
  simp only [read_requirements, process_reqs]
  rcases hsw : sweepAll env s with ⟨r, s2, l2⟩
  cases r <;> simp [hsw]

/-- C10 witness: a concrete unreadable requirements file. -/
theorem C10_unreadable_requirements_witness :
    envC10.reqSource = some (.error "Permission denied") ∧
    (read_requirements (.error "Permission denied")).1 = [] ∧
    (run_manager envC10 stC10).1 = (sweepAll envC10 stC10).2.1 :=
  ⟨rfl,
   (C10_unreadable_requirements envC10 stC10 "Permission denied" rfl).1,
   (C10_unreadable_requirements envC10 stC10 "Permission denied" rfl).2⟩

/-- C4 counterexample: a fenced oracle response whose inner payload is valid
JSON.  The code merges nothing and logs only the fixed message
`Invalid JSON response from ChatGPT` — so the fence markers were not
stripped before parsing, and the raw response does not appear in the logged
failure. -/
theorem C4_counterexample :
    (implement_requirement envC4 reqC4 stU0).2.1.fs = stU0.fs ∧
    (implement_requirement envC4 reqC4 stU0).2.2 =
      ["Invalid JSON response from ChatGPT"] ∧
    envC4.jsonLoads (stripFences fencedC4) = some pC4 ∧
    ¬ (fencedC4 <:+: ("Invalid JSON response from ChatGPT").data) := by
  refine ⟨rfl, rfl, by decide, by decide⟩

/-- C4 (amended): `implement_requirement` passes the whitespace-stripped raw
response directly to the JSON parser (no fence stripping); when that parse
fails, the failure is logged with a fixed message that does not include the
raw response, and the requirement is skipped with every file untouched —
it is not coerced into an empty proposal. -/
theorem C4_no_fence_stripping {P : Type} (env : Env P) (req : Str) (s : St P)
    (resp : Str) (h : env.oracle (implPrompt req) = .ok resp)
    (h2 : env.jsonLoads (pyStrip resp) = none) (h3 : pyStrip resp ≠ []) :
    implement_requirement env req s =
      (.ok (), { s with oracleCalls := s.oracleCalls + 1 },
       ["Invalid JSON response from ChatGPT"]) := by
  unfold implement_requirement chatgpt_generate
  rw [h]
  simp [h2, List.isEmpty_iff, h3]

/-- C4 witness: the amended statement at the fenced concrete response. -/
theorem C4_no_fence_stripping_witness :
    envC4.oracle (implPrompt reqC4) = .ok fencedC4 ∧
    envC4.jsonLoads (pyStrip fencedC4) = none ∧
    pyStrip fencedC4 ≠ [] ∧
    implement_requirement envC4 reqC4 stU0 =
      (.ok (), { stU0 with oracleCalls := stU0.oracleCalls + 1 },
       ["Invalid JSON response from ChatGPT"]) :=
  ⟨rfl, by decide, by decide,
   C4_no_fence_stripping envC4 reqC4 stU0 fencedC4 rfl (by decide) (by decide)⟩

/-- C1 counterexample: a two-requirement run in which the first requirement
merges a Style fragment the checker rejects.  The resulting validation
failure aborts the rest of the run: the second requirement is never
processed (only one oracle call happens, and its processing log line never
appears) and the final sweep never runs — the error is absorbed only by the
run-level handler. -/
theorem C1_counterexample :
    (read_requirements (.ok srcC1)).1 = [r1C1, r2C1] ∧
    (run_manager envC1 stU0).1.oracleCalls = 1 ∧
    ("Processing requirement: Second requirement") ∉ (run_manager envC1 stU0).2 ∧
    ("Error in main execution") ∈ (run_manager envC1 stU0).2 := by
  refine ⟨by decide, by decide, by decide, by decide⟩

/-- C1 (amended): an oracle failure during synthesis is contained — the
requirement is skipped with only the call counter advanced — and a
requirement whose implementation returns normally lets the loop continue
with the remaining requirements; but when `implement_requirement` raises
(as it does whenever a just-touched artifact fails validation, via the
undefined `self.logging` reference), the loop stops at that requirement and
the remaining requirements and the final sweep are never processed (the
exception is caught only by the handler wrapping all of `run`). -/
theorem C1_isolation_boundary :
    (∀ (P : Type) (env : Env P) (req : Str) (s : St P) (m : String),
       env.oracle (implPrompt req) = .error m →
       implement_requirement env req s =
         (.ok (), { s with oracleCalls := s.oracleCalls + 1 },
          ["Error generating content with ChatGPT: " ++ m])) ∧
    (∀ (P : Type) (env : Env P) (r : Str) (rest : List Str) (s s1 s2 : St P)
       (lg1 lg2 : List String),
       check_implementation env r s = (false, s1, lg1) →
       implement_requirement env r s1 = (.ok (), s2, lg2) →
       (process_reqs env (r :: rest) s).1 = (process_reqs env rest s2).1 ∧
       (process_reqs env (r :: rest) s).2.1 = (process_reqs env rest s2).2.1) ∧
    (∀ (P : Type) (env : Env P) (r : Str) (rest : List Str) (s s1 s2 : St P)
       (e : PyErr) (lg1 lg2 : List String),
       check_implementation env r s = (false, s1, lg1) →
       implement_requirement env r s1 = (.error e, s2, lg2) →
       process_reqs env (r :: rest) s =
         (.error e, s2,
          ("Processing requirement: " ++ String.mk r) :: lg1 ++
            ("Implementing requirement: " ++ String.mk r) :: lg2)) := by
  refine ⟨?_, ?_, ?_⟩
  · intro P env req s m h
    unfold implement_requirement chatgpt_generate
    rw [h]
  · intro P env r rest s s1 s2 lg1 lg2 h1 h2
    constructor <;> simp [process_reqs, h1, h2]
  · intro P env r rest s s1 s2 e lg1 lg2 h1 h2
    simp [process_reqs, h1, h2]

/-- C1 witness: the three clauses at concrete runs — a failing oracle, a
contained malformed proposal, and the aborting validation failure. -/
theorem C1_isolation_boundary_witness :
    (envC1f.oracle (implPrompt r1C1) = .error "offline" ∧
     implement_requirement envC1f r1C1 stU0 =
       (.ok (), { stU0 with oracleCalls := stU0.oracleCalls + 1 },
        ["Error generating content with ChatGPT: " ++ "offline"])) ∧
    (check_implementation envC1ok r1C1 stU0 = (false, stU0, []) ∧
     implement_requirement envC1ok r1C1 stU0 = (.ok (), iResC1ok.2.1, iResC1ok.2.2) ∧
     (process_reqs envC1ok [r1C1, r2C1] stU0).1 =
       (process_reqs envC1ok [r2C1] iResC1ok.2.1).1) ∧
    (check_implementation envC1 r1C1 stU0 = (false, stU0, []) ∧
     implement_requirement envC1 r1C1 stU0 = (.error .attrError, iResC1.2.1, iResC1.2.2) ∧
     process_reqs envC1 [r1C1, r2C1] stU0 =
       (.error .attrError, iResC1.2.1,
        ("Processing requirement: " ++ String.mk r1C1) :: [] ++
          ("Implementing requirement: " ++ String.mk r1C1) :: iResC1.2.2)) :=
  ⟨⟨rfl, C1_isolation_boundary.1 Unit envC1f r1C1 stU0 "offline" rfl⟩,
   ⟨rfl, rfl,
    (C1_isolation_boundary.2.1 Unit envC1ok r1C1 [r2C1] stU0 stU0 iResC1ok.2.1
      [] iResC1ok.2.2 rfl rfl).1⟩,
   ⟨rfl, rfl,
    C1_isolation_boundary.2.2 Unit envC1 r1C1 [r2C1] stU0 stU0 iResC1.2.1
      .attrError [] iResC1.2.2 rfl rfl⟩⟩
